import Mathlib

/-!
Verification development for the IoT-Network repository.

The Python domain layer (domain_models.py), the row gateways (gateways.py)
and the application service (application_service.py) are shallowly embedded
below. Device and analysis identifiers are natural numbers; the float
centrality arithmetic of the source is modelled over the rationals, and
datetime stamps, which never influence any computed value under study, are
omitted from the embedded records. The sqlite connection is modelled as a
pair of database snapshots (committed and current); every row gateway
method that calls commit on the shared connection is modelled as a state
operation that immediately publishes the current snapshot.
-/

namespace IoTNet

/-- Status enumeration of a device, from domain_models.py. -/
inductive DeviceStatus
  | active
  | inactive
  | maintenance
  deriving DecidableEq, Repr

/-- Type enumeration of a device, from domain_models.py. -/
inductive DeviceType
  | sensor
  | actuator
  | gateway
  | controller
  deriving DecidableEq, Repr

/-- Type enumeration of a data source, from domain_models.py. -/
inductive DataSourceType
  | api
  | database
  | file
  | stream
  deriving DecidableEq, Repr

/-- Domain model of an IoT device (dataclass Device). The connections field
holds identifiers of other devices. -/
structure Device where
  id : Nat
  device_name : String
  status : DeviceStatus
  type : DeviceType
  network_id : Nat
  connections : List Nat
  deriving DecidableEq, Repr

/-- Device.add_connection: append the identifier unless already present or
equal to the identifier of the device itself. -/
def Device.add_connection (d : Device) (device_id : Nat) : Device :=
  if device_id ∉ d.connections ∧ device_id ≠ d.id then
    { d with connections := d.connections ++ [device_id] }
  else d

/-- Domain model of an analysis result (dataclass AnalysisResult); the
datetime stamp is omitted. -/
structure AnalysisResult where
  id : Nat
  centrality_score : ℚ
  network_id : Nat
  isolated_nodes : List Nat
  redundant_links : List (Nat × Nat)
  deriving DecidableEq, Repr

/-- AnalysisResult.has_issues from domain_models.py. -/
def AnalysisResult.has_issues (r : AnalysisResult) : Bool :=
  decide (0 < r.isolated_nodes.length) || decide (0 < r.redundant_links.length)

/-- AnalysisResult.get_issue_count from domain_models.py. -/
def AnalysisResult.get_issue_count (r : AnalysisResult) : Nat :=
  r.isolated_nodes.length + r.redundant_links.length

/-- Recommendation lines produced by AnalysisResult.get_recommendations,
tagged by kind together with the numeric payload that the source
interpolates into the Russian message text; Rec.render yields that text. -/
inductive Rec
  | isolatedAdvice (count : Nat)
  | redundantAdvice (count : Nat)
  | lowCentrality (score : ℚ)
  | highCentrality (score : ℚ)
  | healthy
  deriving DecidableEq, Repr

/-- Rendering of a recommendation line to its message string; the source
formats the score with two decimals, here the raw value is printed. -/
def Rec.render : Rec → String
  | .isolatedAdvice n =>
      "Обнаружено " ++ toString n ++ " изолированных устройств. " ++
        "Рекомендуется проверить их подключение к сети или удалить, если они не используются."
  | .redundantAdvice n =>
      "Обнаружено " ++ toString n ++ " избыточных связей. " ++
        "Рекомендуется удалить дублирующиеся связи для оптимизации сети."
  | .lowCentrality c =>
      "Низкая центральность сети (" ++ toString c ++ "). " ++
        "Рекомендуется добавить больше связей между ключевыми устройствами."
  | .highCentrality c =>
      "Высокая центральность сети (" ++ toString c ++ "). " ++
        "Сеть может быть перегружена - рассмотрите возможность распределения нагрузки."
  | .healthy =>
      "Сеть в хорошем состоянии. Серьезных проблем не обнаружено."

/-- AnalysisResult.get_recommendations from domain_models.py: the source
appends each applicable line in order to one list, so the built list is the
concatenation of the conditional singletons below; when nothing applies the
single healthy message is returned. -/
def AnalysisResult.get_recommendations (r : AnalysisResult) : List Rec :=
  (if r.isolated_nodes ≠ [] then
      [Rec.isolatedAdvice r.isolated_nodes.length] else []) ++
  (if r.redundant_links ≠ [] then
      [Rec.redundantAdvice r.redundant_links.length] else []) ++
  (if r.centrality_score < 3/10 then [Rec.lowCentrality r.centrality_score]
   else if 7/10 < r.centrality_score then [Rec.highCentrality r.centrality_score]
   else [])

/-- Recommendation list with the fallback healthy message of the source. -/
def AnalysisResult.get_recommendations_full (r : AnalysisResult) : List Rec :=
  if r.get_recommendations = [] then [Rec.healthy] else r.get_recommendations

/-- Rendered recommendation strings as returned by the Python method. -/
def AnalysisResult.get_recommendation_texts (r : AnalysisResult) : List String :=
  r.get_recommendations_full.map Rec.render

/-- Insertion step of the python dict comprehension keyed by id: the first
occurrence of an id fixes the position, a later occurrence overwrites the
stored device. -/
def dictStep (acc : List Device) (d : Device) : List Device :=
  if acc.any (fun e => e.id == d.id) then
    acc.map (fun e => if e.id == d.id then d else e)
  else acc ++ [d]

/-- Python dict comprehension over the device list keyed by id. -/
def buildDevicesDict (devices : List Device) : List Device :=
  devices.foldl dictStep []

/-- Lookup of devices_dict by device identifier. -/
def dictFind (dict : List Device) (i : Nat) : Option Device :=
  dict.find? (fun d => d.id == i)

/-- Python tuple(sorted((a, b))) on a pair of identifiers. -/
def sortedPair (a b : Nat) : Nat × Nat :=
  if a ≤ b then (a, b) else (b, a)

/-- Isolated nodes step of analyze_topology: identifiers of the devices of
the dict whose connections list is empty. -/
def isolated_nodes (dict : List Device) : List Nat :=
  (dict.filter (fun d => d.connections.isEmpty)).map (fun d => d.id)

/-- Condition of the symmetric branch of the redundant link walk: the
connected device exists in the dict and its own connections list contains
the identifier of the device being walked. -/
def hasReverseEntry (dict : List Device) (device_id connected_id : Nat) : Bool :=
  match dictFind dict connected_id with
  | some other => other.connections.contains device_id
  | none => false

/-- Body of the redundant link walk of analyze_topology for one adjacency
entry; the state is the pair of the redundant list and the seen set. -/
def redundantStep (dict : List Device) (device_id : Nat)
    (st : List (Nat × Nat) × List (Nat × Nat)) (connected_id : Nat) :
    List (Nat × Nat) × List (Nat × Nat) :=
  if sortedPair device_id connected_id ∈ st.2 then
    (st.1 ++ [sortedPair device_id connected_id], st.2)
  else if hasReverseEntry dict device_id connected_id then
    (st.1 ++ [sortedPair device_id connected_id], st.2)
  else (st.1, st.2 ++ [sortedPair device_id connected_id])

/-- Redundant links step of analyze_topology: walk every adjacency entry of
every device of the dict in order. -/
def redundant_links (dict : List Device) : List (Nat × Nat) :=
  (dict.foldl (fun st d => d.connections.foldl (redundantStep dict d.id) st)
    (([] : List (Nat × Nat)), ([] : List (Nat × Nat)))).1

/-- Centrality step of analyze_topology: one score per device, appended only
when the maximal possible degree, dict size minus one, is positive. -/
def centrality_scores (dict : List Device) : List ℚ :=
  dict.foldl (fun acc d =>
    if 0 < dict.length - 1 then
      acc ++ [(d.connections.length : ℚ) / ((dict.length - 1 : Nat) : ℚ)]
    else acc) []

/-- Average of the centrality scores, zero when no score was produced. -/
def avg_centrality (dict : List Device) : ℚ :=
  if centrality_scores dict ≠ [] then
    (centrality_scores dict).sum / ((centrality_scores dict).length : ℚ)
  else 0

/-- Domain model of an IoT network (class IoTNetwork); the created_at stamp
is omitted. -/
structure IoTNetwork where
  id : Nat
  description : String
  network_name : String
  user_id : Option Nat := none
  deriving DecidableEq, Repr

/-- IoTNetwork.analyze_topology: raises on an empty device list, modelled as
none; otherwise builds the dict and packages isolated nodes, redundant
links and the average centrality into an AnalysisResult with id zero. -/
def IoTNetwork.analyze_topology (net : IoTNetwork) (devices : List Device) :
    Option AnalysisResult :=
  if devices.isEmpty then none
  else
    some { id := 0
           centrality_score := avg_centrality (buildDevicesDict devices)
           network_id := net.id
           isolated_nodes := isolated_nodes (buildDevicesDict devices)
           redundant_links := redundant_links (buildDevicesDict devices) }

/-- IoTNetwork.validate_connections: false on an empty list, false when some
adjacency entry references no device id of the list, true otherwise. -/
def IoTNetwork.validate_connections (_net : IoTNetwork) (devices : List Device) :
    Bool :=
  if devices.isEmpty then false
  else devices.all (fun d =>
    d.connections.all (fun c => devices.any (fun e => e.id == c)))

/-- Row of the devices table. -/
structure DeviceRow where
  id : Nat
  device_name : String
  status : DeviceStatus
  type : DeviceType
  network_id : Nat
  deriving DecidableEq, Repr

/-- Row of the iot_networks table; the created_at stamp is omitted. -/
structure NetworkRow where
  id : Nat
  description : String
  network_name : String
  user_id : Option Nat
  deriving DecidableEq, Repr

/-- Row of the data_sources table; the timestamp is kept as its stored
string. -/
structure DataSourceRow where
  id : Nat
  datasource_name : String
  last_update : String
  type : DataSourceType
  network_id : Nat
  deriving DecidableEq, Repr

/-- Row of the analysis table; the date column is omitted. -/
structure AnalysisRow where
  id : Nat
  centrality_score : ℚ
  network_id : Nat
  deriving DecidableEq, Repr

/-- Snapshot of the sqlite database: the tables touched by the gateways,
plus the next fresh rowid per autoincrement table. -/
structure DB where
  networks : List NetworkRow
  devices : List DeviceRow
  device_connections : List (Nat × Nat)
  data_sources : List DataSourceRow
  analyses : List AnalysisRow
  isolated_node_rows : List (Nat × Nat)
  redundant_link_rows : List (Nat × Nat × Nat)
  next_device_id : Nat
  next_data_source_id : Nat
  next_analysis_id : Nat
  deriving DecidableEq, Repr

/-- Select of a device row by id, as DeviceGateway.load performs it. -/
def DB.findDeviceRow (db : DB) (i : Nat) : Option DeviceRow :=
  db.devices.find? (fun d => d.id == i)

/-- Select of the connection rows of a device, in stored order. -/
def DB.deviceConnectionsOf (db : DB) (i : Nat) : List Nat :=
  (db.device_connections.filter (fun p => p.1 == i)).map (fun p => p.2)

/-- DeviceGateway.to_domain_model: the device row joined with its stored
connection rows. -/
def DB.deviceToDomain (db : DB) (row : DeviceRow) : Device :=
  { id := row.id
    device_name := row.device_name
    status := row.status
    type := row.type
    network_id := row.network_id
    connections := db.deviceConnectionsOf row.id }

/-- Insertion sort step on device rows by id. -/
def insertRowSorted (d : DeviceRow) : List DeviceRow → List DeviceRow
  | [] => [d]
  | e :: rest => if d.id ≤ e.id then d :: e :: rest else e :: insertRowSorted d rest

/-- Sort of device rows by id, for the ORDER BY id of the device finder. -/
def sortRowsById (l : List DeviceRow) : List DeviceRow :=
  l.foldr insertRowSorted []

/-- DeviceFinder.find_by_network: device rows of the network ordered by
id. -/
def DB.find_devices_by_network (db : DB) (network_id : Nat) : List DeviceRow :=
  sortRowsById (db.devices.filter (fun d => d.network_id == network_id))

/-- Data source rows of a network; the claims under study never depend on
their order, so the stored order is kept. -/
def DB.find_sources_by_network (db : DB) (network_id : Nat) : List DataSourceRow :=
  db.data_sources.filter (fun s => s.network_id == network_id)

/-- Result surface of the analysis use case that the claims mention. -/
structure AnalyzeCallResult where
  success : Bool
  error : Option String
  analysis_id : Option Nat
  centrality_score : Option ℚ
  isolated_nodes_count : Option Nat
  redundant_links_count : Option Nat
  has_issues : Option Bool
  total_issues : Option Nat
  deriving DecidableEq, Repr

/-- Failure value of the analysis use case. -/
def analyzeFailure (msg : String) : AnalyzeCallResult :=
  { success := false
    error := some msg
    analysis_id := none
    centrality_score := none
    isolated_nodes_count := none
    redundant_links_count := none
    has_issues := none
    total_issues := none }

/-- IoTNetworkApplicationService.analyze_topology_and_connections: find the
network, load its devices with adjacency, validate, analyze, persist the
analysis row and its detail rows, and report; every failure path returns
before any write. -/
def analyze_topology_and_connections (db : DB) (network_id : Nat) :
    DB × AnalyzeCallResult :=
  match db.networks.find? (fun n => n.id == network_id) with
  | none =>
      (db, analyzeFailure ("Сеть с ID " ++ toString network_id ++ " не найдена"))
  | some nrow =>
    let network : IoTNetwork :=
      { id := nrow.id
        description := nrow.description
        network_name := nrow.network_name
        user_id := nrow.user_id }
    let device_gateways := db.find_devices_by_network network_id
    if device_gateways.isEmpty then
      (db, analyzeFailure "В сети нет устройств для анализа")
    else
      let devices := device_gateways.map db.deviceToDomain
      if network.validate_connections devices = false then
        (db, analyzeFailure "Сеть содержит невалидные связи")
      else
        match network.analyze_topology devices with
        | none => (db, analyzeFailure "Нет устройств для анализа")
        | some analysis_result =>
          let analysis_id := db.next_analysis_id
          let db1 : DB :=
            { db with
              analyses := db.analyses ++
                [{ id := analysis_id
                   centrality_score := analysis_result.centrality_score
                   network_id := network_id }]
              isolated_node_rows := db.isolated_node_rows ++
                analysis_result.isolated_nodes.map (fun i => (analysis_id, i))
              redundant_link_rows := db.redundant_link_rows ++
                analysis_result.redundant_links.map (fun p => (analysis_id, p.1, p.2))
              next_analysis_id := db.next_analysis_id + 1 }
          (db1,
            { success := true
              error := none
              analysis_id := some analysis_id
              centrality_score := some analysis_result.centrality_score
              isolated_nodes_count := some analysis_result.isolated_nodes.length
              redundant_links_count := some analysis_result.redundant_links.length
              has_issues := some analysis_result.has_issues
              total_issues := some analysis_result.get_issue_count })

/-- Sqlite connection model: the durable committed snapshot and the current
working snapshot of the single shared connection. -/
structure Conn where
  committed : DB
  current : DB
  deriving DecidableEq, Repr

/-- Commit publishes the current snapshot. -/
def Conn.commit (c : Conn) : Conn :=
  { committed := c.current, current := c.current }

/-- Rollback discards everything not committed. -/
def Conn.rollback (c : Conn) : Conn :=
  { committed := c.committed, current := c.committed }

/-- Device record of an ingestion batch, in external identifiers. -/
structure DeviceRecord where
  original_id : Nat
  name : String
  type : DeviceType
  status : DeviceStatus
  deriving DecidableEq, Repr

/-- Data source record of an ingestion batch. -/
structure DataSourceRecord where
  name : String
  type : DataSourceType
  last_update : String
  deriving DecidableEq, Repr

/-- Ingestion batch: named dataset or caller supplied records. -/
structure Dataset where
  name : String
  devices : List DeviceRecord
  connections : List (Nat × Nat)
  data_sources : List DataSourceRecord
  deriving DecidableEq, Repr

/-- DeviceGateway.delete: remove the connection rows touching the device,
the device row, and the analysis detail rows naming it. -/
def DB.deleteDevice (db : DB) (i : Nat) : DB :=
  { db with
    device_connections :=
      db.device_connections.filter (fun p => !(p.1 == i || p.2 == i))
    devices := db.devices.filter (fun d => !(d.id == i))
    isolated_node_rows := db.isolated_node_rows.filter (fun p => !(p.2 == i))
    redundant_link_rows :=
      db.redundant_link_rows.filter (fun t => !(t.2.1 == i || t.2.2 == i)) }

/-- DataSourceGateway.delete: remove the data source row. -/
def DB.deleteDataSource (db : DB) (i : Nat) : DB :=
  { db with data_sources := db.data_sources.filter (fun s => !(s.id == i)) }

/-- DeviceGateway.insert: append a device row under the next fresh rowid. -/
def DB.insertDevice (db : DB) (r : DeviceRecord) (network_id : Nat) : DB :=
  { db with
    devices := db.devices ++
      [{ id := db.next_device_id
         device_name := r.name
         status := r.status
         type := r.type
         network_id := network_id }]
    next_device_id := db.next_device_id + 1 }

/-- DeviceGateway.save_connections: delete the outgoing connection rows of
the device and insert one row per entry of the given list. -/
def DB.saveConnections (db : DB) (i : Nat) (conns : List Nat) : DB :=
  { db with
    device_connections :=
      db.device_connections.filter (fun p => !(p.1 == i)) ++
        conns.map (fun c => (i, c)) }

/-- DataSourceGateway.insert: append a data source row under the next fresh
rowid. -/
def DB.insertDataSource (db : DB) (r : DataSourceRecord) (network_id : Nat) : DB :=
  { db with
    data_sources := db.data_sources ++
      [{ id := db.next_data_source_id
         datasource_name := r.name
         last_update := r.last_update
         type := r.type
         network_id := network_id }]
    next_data_source_id := db.next_data_source_id + 1 }

/-- Running state of one ingestion call: the connection and the index of
the next row gateway operation, used as the fault injection point. -/
structure IngestSt where
  conn : Conn
  opIdx : Nat
  deriving DecidableEq, Repr

/-- Runs one row gateway operation. Every such method of gateways.py ends
in a commit on the shared connection, so a successful operation publishes
the mutated snapshot at once; when the fault parameter names the current
operation index an exception is raised before the mutation is committed and
the connection at the raise is reported to the caller. -/
def gatewayOp (failAt : Option Nat) (f : DB → DB) (s : IngestSt) :
    Except Conn IngestSt :=
  if failAt == some s.opIdx then .error s.conn
  else .ok { conn := Conn.commit { s.conn with current := f s.conn.current }
             opIdx := s.opIdx + 1 }

/-- Deletion loop over the device gateways fetched before the loop. -/
def deleteDevicesPhase (failAt : Option Nat) :
    List Nat → IngestSt → Except Conn IngestSt
  | [], s => .ok s
  | i :: rest, s =>
    match gatewayOp failAt (fun db => db.deleteDevice i) s with
    | .error c => .error c
    | .ok s1 => deleteDevicesPhase failAt rest s1

/-- Deletion loop over the data source gateways of the network. -/
def deleteSourcesPhase (failAt : Option Nat) :
    List Nat → IngestSt → Except Conn IngestSt
  | [], s => .ok s
  | i :: rest, s =>
    match gatewayOp failAt (fun db => db.deleteDataSource i) s with
    | .error c => .error c
    | .ok s1 => deleteSourcesPhase failAt rest s1

/-- Python dict assignment on the external to internal id map: overwrite the
entry of an existing key in place, append a fresh key. -/
def mapAssign (m : List (Nat × Nat)) (k v : Nat) : List (Nat × Nat) :=
  if m.any (fun p => p.1 == k) then
    m.map (fun p => if p.1 == k then (k, v) else p)
  else m ++ [(k, v)]

/-- Python dict lookup on the id map. -/
def mapLookup (m : List (Nat × Nat)) (k : Nat) : Option Nat :=
  (m.find? (fun p => p.1 == k)).map (fun p => p.2)

/-- Insertion loop over the device records: each record is inserted under a
fresh id and recorded in the id map under its external id. -/
def insertDevicesPhase (failAt : Option Nat) (network_id : Nat) :
    List DeviceRecord → List (Nat × Nat) → IngestSt →
    Except Conn (List (Nat × Nat) × IngestSt)
  | [], idMap, s => .ok (idMap, s)
  | r :: rest, idMap, s =>
    match gatewayOp failAt (fun db => db.insertDevice r network_id) s with
    | .error c => .error c
    | .ok s1 =>
      insertDevicesPhase failAt network_id rest
        (mapAssign idMap r.original_id s.conn.current.next_device_id) s1

/-- Connection loop of load_iot_data: resolve both external ids through the
id map, dedup on the canonical sorted pair, reload the source device with
its adjacency, add the target through the domain model and save; the count
grows once per saved pair. -/
def connectionsPhase (failAt : Option Nat) (idMap : List (Nat × Nat)) :
    List (Nat × Nat) → List (Nat × Nat) → Nat → IngestSt →
    Except Conn (Nat × IngestSt)
  | [], _seen, count, s => .ok (count, s)
  | (so, ta) :: rest, seen, count, s =>
    match mapLookup idMap so, mapLookup idMap ta with
    | some source_id, some target_id =>
      if sortedPair source_id target_id ∈ seen then
        connectionsPhase failAt idMap rest seen count s
      else
        match s.conn.current.findDeviceRow source_id with
        | none =>
          connectionsPhase failAt idMap rest
            (seen ++ [sortedPair source_id target_id]) count s
        | some row =>
          match gatewayOp failAt
              (fun db => db.saveConnections source_id
                ((db.deviceToDomain row).add_connection target_id).connections) s with
          | .error c => .error c
          | .ok s1 =>
            connectionsPhase failAt idMap rest
              (seen ++ [sortedPair source_id target_id]) (count + 1) s1
    | _, _ => connectionsPhase failAt idMap rest seen count s

/-- Insertion loop over the data source records. -/
def dataSourcesPhase (failAt : Option Nat) (network_id : Nat) :
    List DataSourceRecord → IngestSt → Except Conn IngestSt
  | [], s => .ok s
  | r :: rest, s =>
    match gatewayOp failAt (fun db => db.insertDataSource r network_id) s with
    | .error c => .error c
    | .ok s1 => dataSourcesPhase failAt network_id rest s1

/-- Result surface of the ingestion use case. -/
structure LoadResult where
  success : Bool
  error : Option String
  devices_loaded : Nat
  connections_loaded : Nat
  data_sources_loaded : Nat
  deriving DecidableEq, Repr

/-- Failure value of the ingestion use case. -/
def loadFailure (msg : String) : LoadResult :=
  { success := false
    error := some msg
    devices_loaded := 0
    connections_loaded := 0
    data_sources_loaded := 0 }

/-- IoTNetworkApplicationService.load_iot_data over a resolved dataset: the
network is located first, the devices and data sources of the network are
deleted, the batch is inserted, and any raised exception is answered by a
rollback of the connection; the fault parameter names the row gateway
operation at which an exception is raised, none meaning a fault free run. -/
def load_iot_data (failAt : Option Nat) (conn : Conn) (network_id : Nat)
    (dataset : Dataset) : Conn × LoadResult :=
  match conn.current.networks.find? (fun n => n.id == network_id) with
  | none =>
      (conn, loadFailure ("Сеть с ID " ++ toString network_id ++ " не найдена"))
  | some _ =>
    let s0 : IngestSt := { conn := conn, opIdx := 0 }
    match deleteDevicesPhase failAt
        ((conn.current.find_devices_by_network network_id).map (fun d => d.id)) s0 with
    | .error c => (c.rollback, loadFailure "исключение при загрузке")
    | .ok s1 =>
      match deleteSourcesPhase failAt
          ((s1.conn.current.find_sources_by_network network_id).map (fun s => s.id)) s1 with
      | .error c => (c.rollback, loadFailure "исключение при загрузке")
      | .ok s2 =>
        match insertDevicesPhase failAt network_id dataset.devices [] s2 with
        | .error c => (c.rollback, loadFailure "исключение при загрузке")
        | .ok (idMap, s3) =>
          match connectionsPhase failAt idMap dataset.connections [] 0 s3 with
          | .error c => (c.rollback, loadFailure "исключение при загрузке")
          | .ok (connection_count, s4) =>
            match dataSourcesPhase failAt network_id dataset.data_sources s4 with
            | .error c => (c.rollback, loadFailure "исключение при загрузке")
            | .ok s5 =>
              let conn5 := s5.conn.commit
              (conn5,
                { success := true
                  error := none
                  devices_loaded :=
                    (conn5.current.find_devices_by_network network_id).length
                  connections_loaded := connection_count
                  data_sources_loaded :=
                    (conn5.current.find_sources_by_network network_id).length })

/-- Id map produced by the device insertion loop when no fault occurs, as a
pure function of the first fresh id and the records. -/
def builtIdMap (startId : Nat) :
    List DeviceRecord → List (Nat × Nat) → List (Nat × Nat)
  | [], m => m
  | r :: rest, m => builtIdMap (startId + 1) rest (mapAssign m r.original_id startId)

/-- Specification reading of the connection count of claim C5: canonical
keys of the connection pairs whose both external ids resolve through the id
map, the pair of mapped internal ids sorted by value. -/
def resolvedCanonicalKeys (idMap : List (Nat × Nat)) (pairs : List (Nat × Nat)) :
    List (Nat × Nat) :=
  pairs.filterMap (fun p =>
    match mapLookup idMap p.1, mapLookup idMap p.2 with
    | some s, some t => some (sortedPair s t)
    | _, _ => none)

/-- Number of distinct canonical keys among the resolved pairs. -/
def distinctKeyCount (idMap : List (Nat × Nat)) (pairs : List (Nat × Nat)) : Nat :=
  (resolvedCanonicalKeys idMap pairs).dedup.length

/-- Network used by the concrete scenarios. -/
def net1 : IoTNetwork :=
  { id := 1, description := "тест", network_name := "Сеть 1", user_id := some 1 }

/-- Scenario A of the specification: stored adjacency S1 to C and S2 to C,
the adjacency of C itself empty. -/
def scenarioA : List Device :=
  [ { id := 1, device_name := "S1", status := .active, type := .sensor,
      network_id := 1, connections := [3] },
    { id := 2, device_name := "S2", status := .active, type := .sensor,
      network_id := 1, connections := [3] },
    { id := 3, device_name := "C", status := .active, type := .controller,
      network_id := 1, connections := [] } ]

/-- Scenario B of the specification: stored adjacency of the pair of devices
one and two holds the duplicated entry one to two twice and the reciprocal
entry two to one; a third device keeps the graph free of isolated nodes. -/
def scenarioB : List Device :=
  [ { id := 1, device_name := "A", status := .active, type := .sensor,
      network_id := 1, connections := [2, 2] },
    { id := 2, device_name := "B", status := .active, type := .sensor,
      network_id := 1, connections := [1] },
    { id := 3, device_name := "D", status := .active, type := .controller,
      network_id := 1, connections := [1] } ]

/-- Two devices holding exactly one adjacency entry towards each other. -/
def pairDevices (a b : Nat) : List Device :=
  [ { id := a, device_name := "A", status := .active, type := .sensor,
      network_id := 1, connections := [b] },
    { id := b, device_name := "B", status := .active, type := .sensor,
      network_id := 1, connections := [a] } ]

/-- Device list whose adjacency passes validation yet holds a duplicated
entry three times. -/
def overloadedDevices : List Device :=
  [ { id := 1, device_name := "A", status := .active, type := .sensor,
      network_id := 1, connections := [2, 2, 2] },
    { id := 2, device_name := "B", status := .active, type := .sensor,
      network_id := 1, connections := [] } ]

/-- Database holding network one and nothing else. -/
def dbNetworkOnly : DB :=
  { networks := [{ id := 1, description := "тест", network_name := "Сеть 1",
                   user_id := some 1 }]
    devices := []
    device_connections := []
    data_sources := []
    analyses := []
    isolated_node_rows := []
    redundant_link_rows := []
    next_device_id := 1
    next_data_source_id := 1
    next_analysis_id := 1 }

/-- Database holding network one and one prior device named Old. -/
def dbWithOldDevice : DB :=
  { networks := [{ id := 1, description := "тест", network_name := "Сеть 1",
                   user_id := some 1 }]
    devices := [{ id := 1, device_name := "Old", status := .active,
                  type := .sensor, network_id := 1 }]
    device_connections := []
    data_sources := []
    analyses := []
    isolated_node_rows := []
    redundant_link_rows := []
    next_device_id := 2
    next_data_source_id := 1
    next_analysis_id := 1 }

/-- Connection whose committed and current snapshots both hold the prior
device. -/
def connWithOldDevice : Conn :=
  { committed := dbWithOldDevice, current := dbWithOldDevice }

/-- Connection over the database holding only network one. -/
def connNetworkOnly : Conn :=
  { committed := dbNetworkOnly, current := dbNetworkOnly }

/-- Sample dataset simple_test of the application service. -/
def simple_test : Dataset :=
  { name := "Простой тест"
    devices :=
      [ { original_id := 401, name := "Датчик 1", type := .sensor, status := .active },
        { original_id := 402, name := "Датчик 2", type := .sensor, status := .active },
        { original_id := 403, name := "Контроллер", type := .controller, status := .active } ]
    connections := [(401, 403), (402, 403)]
    data_sources :=
      [ { name := "Test API", type := .api, last_update := "2025-01-01T00:00:00" } ] }

/-- C1 counterexample: on the three device graph of scenario A the analysis
reports device C as isolated and a centrality of one third, so the claimed
result with no isolated node and centrality 0.6667 is false. -/
theorem C1_counterexample :
    (net1.analyze_topology scenarioA).map AnalysisResult.isolated_nodes = some [3] ∧
    (net1.analyze_topology scenarioA).map AnalysisResult.centrality_score = some (1/3) ∧
    ¬ ((net1.analyze_topology scenarioA).map AnalysisResult.isolated_nodes = some [] ∧
       (net1.analyze_topology scenarioA).map AnalysisResult.centrality_score =
         some (6667/10000)) := by
  have hiso : (net1.analyze_topology scenarioA).map AnalysisResult.isolated_nodes =
      some [3] := by decide
  have hcent : (net1.analyze_topology scenarioA).map AnalysisResult.centrality_score =
      some (1/3) := by
    have hd : buildDevicesDict scenarioA = scenarioA := by decide
    have hs : centrality_scores scenarioA = [1/2, 1/2, 0] := by
      norm_num [centrality_scores, scenarioA, List.foldl]
    show some (avg_centrality (buildDevicesDict scenarioA)) = some (1/3)
    refine congrArg some ?_
    rw [hd]
    unfold avg_centrality
    rw [hs]
    rw [if_pos (by simp : ([1/2, 1/2, 0] : List ℚ) ≠ [])]
    norm_num
  refine ⟨hiso, hcent, fun h => ?_⟩
  rw [h.1] at hiso
  exact absurd (Option.some.inj hiso) (by decide)

/-- C1 amended: on scenario A the analysis returns isolated_nodes holding
exactly device C, no redundant link, and centrality one third, the average
of 1/2, 1/2 and 0/2, each degree counting only the outgoing recorded
adjacency of a device. -/
theorem C1_amended :
    (net1.analyze_topology scenarioA).map AnalysisResult.isolated_nodes = some [3] ∧
    (net1.analyze_topology scenarioA).map AnalysisResult.redundant_links =
      some ([] : List (Nat × Nat)) ∧
    (net1.analyze_topology scenarioA).map AnalysisResult.centrality_score =
      some (1/3) := by
  refine ⟨by decide, by decide, ?_⟩
  have hd : buildDevicesDict scenarioA = scenarioA := by decide
  have hs : centrality_scores scenarioA = [1/2, 1/2, 0] := by
    norm_num [centrality_scores, scenarioA, List.foldl]
  show some (avg_centrality (buildDevicesDict scenarioA)) = some (1/3)
  refine congrArg some ?_
  rw [hd]
  unfold avg_centrality
  rw [hs]
  rw [if_pos (by simp : ([1/2, 1/2, 0] : List ℚ) ≠ [])]
  norm_num

/-- C3 counterexample: on scenario B the walk records three redundant
entries for the pair, not the claimed two, because the symmetric branch
never marks the canonical key as seen. -/
theorem C3_counterexample :
    (net1.analyze_topology scenarioB).map
        (fun r => r.redundant_links.length) = some 3 ∧
    (net1.analyze_topology scenarioB).map AnalysisResult.isolated_nodes = some [] ∧
    ¬ ((net1.analyze_topology scenarioB).map
        (fun r => r.redundant_links.length) = some 2) := by
  decide

/-- C3 amended: on scenario B the analysis records the canonical pair three
times, once per walked directed entry of the pair, and no isolated node. -/
theorem C3_amended :
    (net1.analyze_topology scenarioB).map AnalysisResult.redundant_links =
      some [(1, 2), (1, 2), (1, 2)] ∧
    (net1.analyze_topology scenarioB).map AnalysisResult.isolated_nodes = some [] := by
  decide

/-- C4 counterexample: a single reciprocal pair produces two redundant
entries, one from each side of the walk, not the claimed single entry. -/
theorem C4_counterexample :
    (net1.analyze_topology (pairDevices 1 2)).map
        (fun r => r.redundant_links.length) = some 2 ∧
    ¬ ((net1.analyze_topology (pairDevices 1 2)).map
        (fun r => r.redundant_links.length) = some 1) := by
  decide

/-- C6 counterexample: a duplicated adjacency entry passes validation and
drives the centrality score to 3/2, outside the unit interval. -/
theorem C6_counterexample :
    net1.validate_connections overloadedDevices = true ∧
    (net1.analyze_topology overloadedDevices).map AnalysisResult.centrality_score =
      some (3/2) ∧
    ¬ ((3 : ℚ)/2 ≤ 1) := by
  refine ⟨by decide, ?_, by norm_num⟩
  have hd : buildDevicesDict overloadedDevices = overloadedDevices := by decide
  have hs : centrality_scores overloadedDevices = [3, 0] := by
    norm_num [centrality_scores, overloadedDevices, List.foldl]
  show some (avg_centrality (buildDevicesDict overloadedDevices)) = some (3/2)
  refine congrArg some ?_
  rw [hd]
  unfold avg_centrality
  rw [hs]
  rw [if_pos (by simp : ([3, 0] : List ℚ) ≠ [])]
  norm_num

/-- C10: has_issues holds exactly when the issue count is positive, and the
issue count is the length of the isolated node list plus the length of the
redundant link list. -/
theorem C10_issue_count (r : AnalysisResult) :
    (r.has_issues = true ↔ 0 < r.get_issue_count) ∧
    r.get_issue_count = r.isolated_nodes.length + r.redundant_links.length := by
  refine ⟨?_, rfl⟩
  unfold AnalysisResult.has_issues AnalysisResult.get_issue_count
  simp only [Bool.or_eq_true, decide_eq_true_eq]
  omega

/-- C7: validation returns false exactly when the device list is empty or
some adjacency entry references no device id of the list, and returns true
in every other case. -/
theorem C7_validate_iff (net : IoTNetwork) (devices : List Device) :
    (net.validate_connections devices = false ↔
      devices = [] ∨ ∃ d ∈ devices, ∃ c ∈ d.connections, ∀ e ∈ devices, e.id ≠ c) ∧
    (net.validate_connections devices = true ↔
      devices ≠ [] ∧ ∀ d ∈ devices, ∀ c ∈ d.connections, ∃ e ∈ devices, e.id = c) := by
  have htrue : net.validate_connections devices = true ↔
      devices ≠ [] ∧ ∀ d ∈ devices, ∀ c ∈ d.connections, ∃ e ∈ devices, e.id = c := by
    unfold IoTNetwork.validate_connections
    cases devices with
    | nil => simp
    | cons d ds => simp [List.all_eq_true, List.any_eq_true]
  have hfalse : net.validate_connections devices = false ↔
      devices = [] ∨ ∃ d ∈ devices, ∃ c ∈ d.connections, ∀ e ∈ devices, e.id ≠ c := by
    rw [Bool.eq_false_iff, ne_eq, htrue, not_and_or, not_not]
    refine or_congr Iff.rfl ?_
    push_neg
    rfl
  exact ⟨hfalse, htrue⟩

/-- C9: the recommendation list holds the isolated advisory exactly when
some isolated node was found, the redundant advisory exactly when some
redundant link was found, the under connected advisory exactly when the
centrality is below 0.3, the over connected advisory exactly when it is
above 0.7, equals the single healthy message exactly when none of these
conditions holds, and is never empty. -/
theorem C9_recommendations (r : AnalysisResult) :
    (Rec.isolatedAdvice r.isolated_nodes.length ∈ r.get_recommendations_full ↔
        0 < r.isolated_nodes.length) ∧
    (Rec.redundantAdvice r.redundant_links.length ∈ r.get_recommendations_full ↔
        0 < r.redundant_links.length) ∧
    (Rec.lowCentrality r.centrality_score ∈ r.get_recommendations_full ↔
        r.centrality_score < 3/10) ∧
    (Rec.highCentrality r.centrality_score ∈ r.get_recommendations_full ↔
        7/10 < r.centrality_score) ∧
    (r.get_recommendations_full = [Rec.healthy] ↔
        (r.isolated_nodes = [] ∧ r.redundant_links = [] ∧
         ¬ r.centrality_score < 3/10 ∧ ¬ 7/10 < r.centrality_score)) ∧
    r.get_recommendations_full ≠ [] := by
  unfold AnalysisResult.get_recommendations_full AnalysisResult.get_recommendations
  split_ifs <;> simp_all [List.length_pos] <;> try linarith

/-- C8: when the network exists but holds no device the analysis use case
fails, reports an error, leaves the database untouched, and the domain
analysis of an empty device list produces no report. -/
theorem C8_empty_network (db : DB) (network_id : Nat)
    (hnet : (db.networks.find? (fun n => n.id == network_id)).isSome)
    (hempty : ∀ d ∈ db.devices, d.network_id ≠ network_id) :
    (analyze_topology_and_connections db network_id).2.success = false ∧
    (analyze_topology_and_connections db network_id).2.error ≠ none ∧
    (analyze_topology_and_connections db network_id).1 = db ∧
    net1.analyze_topology ([] : List Device) = none := by
  obtain ⟨nrow, hfind⟩ := Option.isSome_iff_exists.mp hnet
  have hdev : db.find_devices_by_network network_id = [] := by
    unfold DB.find_devices_by_network
    have hfil : db.devices.filter (fun d => d.network_id == network_id) = [] := by
      rw [List.filter_eq_nil_iff]
      intro d hd
      simp [hempty d hd]
    rw [hfil]
    rfl
  unfold analyze_topology_and_connections
  rw [hfind, hdev]
  simp [analyzeFailure]
  rfl

/-- C8 witness: the database holding only network one realizes the empty
network failure. -/
theorem C8_empty_network_witness :
    (analyze_topology_and_connections dbNetworkOnly 1).2.success = false ∧
    (analyze_topology_and_connections dbNetworkOnly 1).2.error ≠ none ∧
    (analyze_topology_and_connections dbNetworkOnly 1).1 = dbNetworkOnly ∧
    net1.analyze_topology ([] : List Device) = none :=
  C8_empty_network dbNetworkOnly 1 (by decide) (by decide)

/-- C4 amended: for every pair of distinct devices whose stored adjacency
holds the edge from each to the other exactly once, the analysis records
the canonical pair twice, once from each side of the walk, because the
symmetric branch fires on both directed entries and never marks the key as
seen. -/
theorem C4_amended (a b : Nat) (h : a ≠ b) :
    (net1.analyze_topology (pairDevices a b)).map AnalysisResult.redundant_links =
      some [sortedPair a b, sortedPair a b] := by
  have hab : (a == b) = false := by simp [h]
  have hba : (b == a) = false := by simp [Ne.symm h]
  have hpair : sortedPair b a = sortedPair a b := by
    unfold sortedPair
    rcases Nat.lt_or_ge a b with h1 | h1
    · rw [if_neg (by omega), if_pos (by omega)]
    · rw [if_pos (by omega), if_neg (by omega)]
  show some (redundant_links (buildDevicesDict (pairDevices a b))) =
    some [sortedPair a b, sortedPair a b]
  refine congrArg some ?_
  have hdict : buildDevicesDict (pairDevices a b) = pairDevices a b := by
    simp [buildDevicesDict, pairDevices, dictStep, List.foldl, hab]
  rw [hdict]
  simp [redundant_links, pairDevices, List.foldl, redundantStep, hasReverseEntry,
    dictFind, List.find?, hab, hba, hpair, List.contains]

/-- C4 witness: the reciprocal pair of devices one and two yields two
redundant entries. -/
theorem C4_amended_witness :
    (net1.analyze_topology (pairDevices 1 2)).map AnalysisResult.redundant_links =
      some [sortedPair 1 2, sortedPair 1 2] :=
  C4_amended 1 2 (by decide)

/-- C2: ingestion is not atomic. Starting from a committed state holding one
prior device of network one, running the simple_test batch with an
exception raised at the data source insertion, after every delete and every
device and connection insertion already ran, leaves a committed state in
which the prior device is gone and the three new devices and their
connection rows are present, while the call reports failure: the rollback of
the catch block restores nothing because every row gateway method commits
the shared connection itself. The fault free run of the same input succeeds,
showing the fault injection point is the only difference. -/
theorem C2_rollback_not_atomic :
    (load_iot_data (some 6) connWithOldDevice 1 simple_test).2.success = false ∧
    (load_iot_data (some 6) connWithOldDevice 1 simple_test).1.committed.devices.map
        DeviceRow.id = [2, 3, 4] ∧
    (load_iot_data (some 6) connWithOldDevice 1 simple_test).1.current.devices.map
        DeviceRow.id = [2, 3, 4] ∧
    connWithOldDevice.committed.devices.map DeviceRow.id = [1] ∧
    (load_iot_data (some 6) connWithOldDevice 1 simple_test).1.committed.device_connections =
      [(2, 4), (3, 4)] ∧
    (load_iot_data (some 6) connWithOldDevice 1 simple_test).1.committed.data_sources = [] ∧
    (load_iot_data none connWithOldDevice 1 simple_test).2.success = true := by
  decide

/-- Membership of a device in one insertion step of the dict build. -/
theorem dictStep_mem {acc : List Device} {d e : Device} (h : e ∈ dictStep acc d) :
    e ∈ acc ∨ e = d := by
  unfold dictStep at h
  split at h
  · obtain ⟨p, hp, hpe⟩ := List.mem_map.mp h
    by_cases hid : (p.id == d.id) = true
    · rw [if_pos hid] at hpe
      exact Or.inr hpe.symm
    · rw [if_neg hid] at hpe
      exact Or.inl (hpe ▸ hp)
  · rcases List.mem_append.mp h with h1 | h1
    · exact Or.inl h1
    · exact Or.inr (List.mem_singleton.mp h1)

/-- Identifier list of one insertion step of the dict build. -/
theorem dictStep_ids (acc : List Device) (d : Device) :
    (dictStep acc d).map Device.id =
      if acc.any (fun e => e.id == d.id) then acc.map Device.id
      else acc.map Device.id ++ [d.id] := by
  unfold dictStep
  split
  · rw [List.map_map]
    refine List.map_congr_left fun e he => ?_
    simp only [Function.comp_apply]
    by_cases hid : (e.id == d.id) = true
    · rw [if_pos hid]
      exact (beq_iff_eq.mp hid).symm
    · rw [if_neg hid]
  · simp

/-- Every device of the folded dict comes from the accumulator or the
walked list. -/
theorem foldl_dict_mem : ∀ (l acc : List Device),
    ∀ e ∈ l.foldl dictStep acc, e ∈ acc ∨ e ∈ l := by
  intro l
  induction l with
  | nil => intro acc e he; exact Or.inl he
  | cons d ds ih =>
    intro acc e he
    rw [List.foldl_cons] at he
    rcases ih (dictStep acc d) e he with h1 | h1
    · rcases dictStep_mem h1 with h2 | h2
      · exact Or.inl h2
      · exact Or.inr (h2 ▸ List.mem_cons_self d ds)
    · exact Or.inr (List.mem_cons_of_mem d h1)

/-- Identifier membership in the folded dict. -/
theorem foldl_dict_ids_mem : ∀ (l acc : List Device) (i : Nat),
    i ∈ (l.foldl dictStep acc).map Device.id ↔
      i ∈ acc.map Device.id ∨ i ∈ l.map Device.id := by
  intro l
  induction l with
  | nil => intro acc i; simp
  | cons d ds ih =>
    intro acc i
    rw [List.foldl_cons, ih, dictStep_ids]
    split
    · rename_i hany
      have hd : d.id ∈ acc.map Device.id := by
        obtain ⟨e, he, heq⟩ := List.any_eq_true.mp hany
        exact List.mem_map.mpr ⟨e, he, beq_iff_eq.mp heq⟩
      by_cases hi : i = d.id
      · subst hi; simp [hd]
      · simp [hi]
    · simp only [List.mem_append, List.map_cons, List.mem_cons, List.not_mem_nil,
        or_false]
      tauto

/-- Identifier list of the folded dict stays duplicate free. -/
theorem foldl_dict_ids_nodup : ∀ (l acc : List Device),
    (acc.map Device.id).Nodup → ((l.foldl dictStep acc).map Device.id).Nodup := by
  intro l
  induction l with
  | nil => intro acc h; exact h
  | cons d ds ih =>
    intro acc h
    rw [List.foldl_cons]
    refine ih _ ?_
    rw [dictStep_ids]
    split
    · exact h
    · rename_i hany
      have hd : d.id ∉ acc.map Device.id := by
        intro hmem
        obtain ⟨e, he, heq⟩ := List.mem_map.mp hmem
        exact hany (List.any_eq_true.mpr ⟨e, he, beq_iff_eq.mpr heq⟩)
      exact ((List.perm_append_singleton d.id (acc.map Device.id)).nodup_iff).mpr
        (List.nodup_cons.mpr ⟨hd, h⟩)

/-- Every dict entry is a device of the analyzed list. -/
theorem mem_buildDevicesDict {ds : List Device} {e : Device}
    (h : e ∈ buildDevicesDict ds) : e ∈ ds := by
  rcases foldl_dict_mem ds [] e h with h1 | h1
  · cases h1
  · exact h1

/-- The dict and the analyzed list carry the same identifiers. -/
theorem buildDevicesDict_ids_mem (ds : List Device) (i : Nat) :
    i ∈ (buildDevicesDict ds).map Device.id ↔ i ∈ ds.map Device.id := by
  unfold buildDevicesDict
  rw [foldl_dict_ids_mem]
  simp

/-- The dict identifiers are duplicate free. -/
theorem buildDevicesDict_ids_nodup (ds : List Device) :
    ((buildDevicesDict ds).map Device.id).Nodup :=
  foldl_dict_ids_nodup ds [] (by simp)

/-- Degree bound: with validated, duplicate free, self free adjacency every
device of the dict has degree at most the dict size minus one. -/
theorem degree_le (ds : List Device)
    (hall : ∀ d ∈ ds, ∀ c ∈ d.connections, ∃ e ∈ ds, e.id = c)
    (hdup : ∀ d ∈ ds, d.connections.Nodup)
    (hself : ∀ d ∈ ds, d.id ∉ d.connections) :
    ∀ d ∈ buildDevicesDict ds,
      d.connections.length ≤ (buildDevicesDict ds).length - 1 := by
  intro d hd
  have hdds : d ∈ ds := mem_buildDevicesDict hd
  have hnd : d.connections.Nodup := hdup d hdds
  have hids : ((buildDevicesDict ds).map Device.id).Nodup := buildDevicesDict_ids_nodup ds
  have hsub : d.connections.toFinset ⊆
      ((buildDevicesDict ds).map Device.id).toFinset.erase d.id := by
    intro c hc
    rw [List.mem_toFinset] at hc
    refine Finset.mem_erase.mpr ⟨?_, ?_⟩
    · intro hceq
      exact hself d hdds (hceq ▸ hc)
    · rw [List.mem_toFinset, buildDevicesDict_ids_mem]
      obtain ⟨e, he, heq⟩ := hall d hdds c hc
      exact List.mem_map.mpr ⟨e, he, heq⟩
  have h1 : d.connections.toFinset.card = d.connections.length :=
    List.toFinset_card_of_nodup hnd
  have hdmem : d.id ∈ ((buildDevicesDict ds).map Device.id).toFinset := by
    rw [List.mem_toFinset]
    exact List.mem_map.mpr ⟨d, hd, rfl⟩
  have h2 := Finset.card_le_card hsub
  rw [h1, Finset.card_erase_of_mem hdmem,
      List.toFinset_card_of_nodup hids, List.length_map] at h2
  exact h2

/-- Folding an append of singletons is a map. -/
theorem foldl_append_map (f : Device → ℚ) :
    ∀ (l : List Device) (acc : List ℚ),
      l.foldl (fun a d => a ++ [f d]) acc = acc ++ l.map f := by
  intro l
  induction l with
  | nil => intro acc; simp
  | cons d ds ih =>
    intro acc
    rw [List.foldl_cons, ih]
    simp

/-- Folding a constant accumulator function changes nothing. -/
theorem foldl_keep (l : List Device) (acc : List ℚ) :
    l.foldl (fun a _ => a) acc = acc := by
  induction l with
  | nil => rfl
  | cons d ds ih => rw [List.foldl_cons]; exact ih

/-- Shape of the score list when the maximal possible degree is positive. -/
theorem centrality_scores_pos (dict : List Device) (h : 0 < dict.length - 1) :
    centrality_scores dict =
      dict.map (fun d => (d.connections.length : ℚ) / ((dict.length - 1 : Nat) : ℚ)) := by
  unfold centrality_scores
  simp only [if_pos h]
  exact (foldl_append_map _ dict []).trans (by simp)

/-- Shape of the score list when at most one device is present. -/
theorem centrality_scores_degenerate (dict : List Device) (h : ¬ 0 < dict.length - 1) :
    centrality_scores dict = [] := by
  unfold centrality_scores
  simp only [if_neg h]
  exact foldl_keep dict []

/-- Bounds of the average centrality under validated, duplicate free, self
free adjacency. -/
theorem avg_centrality_bounds (ds : List Device)
    (hall : ∀ d ∈ ds, ∀ c ∈ d.connections, ∃ e ∈ ds, e.id = c)
    (hdup : ∀ d ∈ ds, d.connections.Nodup)
    (hself : ∀ d ∈ ds, d.id ∉ d.connections) :
    0 ≤ avg_centrality (buildDevicesDict ds) ∧
      avg_centrality (buildDevicesDict ds) ≤ 1 := by
  by_cases h : 0 < (buildDevicesDict ds).length - 1
  · have hs := centrality_scores_pos (buildDevicesDict ds) h
    have hbound := degree_le ds hall hdup hself
    have hmem : ∀ x ∈ centrality_scores (buildDevicesDict ds), 0 ≤ x ∧ x ≤ 1 := by
      intro x hx
      rw [hs] at hx
      obtain ⟨d, hd, rfl⟩ := List.mem_map.mp hx
      have hdenpos : (0 : ℚ) < (((buildDevicesDict ds).length - 1 : Nat) : ℚ) := by
        exact_mod_cast h
      refine ⟨div_nonneg (Nat.cast_nonneg _) hdenpos.le, ?_⟩
      rw [div_le_one hdenpos]
      exact_mod_cast hbound d hd
    have hsumnn : 0 ≤ (centrality_scores (buildDevicesDict ds)).sum :=
      List.sum_nonneg (fun x hx => (hmem x hx).1)
    have hsumle : (centrality_scores (buildDevicesDict ds)).sum ≤
        ((centrality_scores (buildDevicesDict ds)).length : ℚ) := by
      have h2 := List.sum_le_card_nsmul (centrality_scores (buildDevicesDict ds)) 1
        (fun x hx => (hmem x hx).2)
      simpa using h2
    have hlen : (centrality_scores (buildDevicesDict ds)).length =
        (buildDevicesDict ds).length := by
      rw [hs, List.length_map]
    have hlenpos : 0 < (centrality_scores (buildDevicesDict ds)).length := by
      rw [hlen]; omega
    have hnenil : centrality_scores (buildDevicesDict ds) ≠ [] :=
      List.length_pos.mp hlenpos
    unfold avg_centrality
    rw [if_pos hnenil]
    have hcast : (0 : ℚ) < ((centrality_scores (buildDevicesDict ds)).length : ℚ) := by
      exact_mod_cast hlenpos
    exact ⟨div_nonneg hsumnn hcast.le, (div_le_one hcast).mpr hsumle⟩
  · have hs := centrality_scores_degenerate (buildDevicesDict ds) h
    unfold avg_centrality
    rw [hs]
    norm_num

/-- C6 amended: when validation passes and every adjacency list is
duplicate free and never names the device itself, the centrality score of
the produced analysis lies in the unit interval; the score of a one device
network is zero and an empty network yields no analysis. Without the
duplicate freedom assumption the bound fails, as the counterexample
shows. -/
theorem C6_amended (net : IoTNetwork) (devices : List Device)
    (hval : net.validate_connections devices = true)
    (hdup : ∀ d ∈ devices, d.connections.Nodup)
    (hself : ∀ d ∈ devices, d.id ∉ d.connections) :
    (∀ res, net.analyze_topology devices = some res →
        0 ≤ res.centrality_score ∧ res.centrality_score ≤ 1) ∧
    (∀ d : Device,
        (net.analyze_topology [d]).map AnalysisResult.centrality_score = some 0) ∧
    net.analyze_topology ([] : List Device) = none := by
  have hall : ∀ d ∈ devices, ∀ c ∈ d.connections, ∃ e ∈ devices, e.id = c := by
    intro d hd c hc
    unfold IoTNetwork.validate_connections at hval
    split at hval
    · cases hval
    · rw [List.all_eq_true] at hval
      have h1 := hval d hd
      rw [List.all_eq_true] at h1
      have h2 := h1 c hc
      rw [List.any_eq_true] at h2
      obtain ⟨e, he, heq⟩ := h2
      exact ⟨e, he, beq_iff_eq.mp heq⟩
  refine ⟨?_, ?_, rfl⟩
  · intro res hres
    unfold IoTNetwork.analyze_topology at hres
    split at hres
    · cases hres
    · have hb := avg_centrality_bounds devices hall hdup hself
      obtain rfl := Option.some.inj hres
      exact hb
  · intro d
    show some (avg_centrality (buildDevicesDict [d])) = some 0
    refine congrArg some ?_
    have hd1 : buildDevicesDict [d] = [d] := by
      simp [buildDevicesDict, dictStep, List.foldl]
    rw [hd1]
    have hs := centrality_scores_degenerate [d] (by simp)
    unfold avg_centrality
    rw [hs]
    simp

/-- C6 witness: scenario A satisfies every hypothesis, its score is
bounded, and a one device network scores zero. -/
theorem C6_amended_witness :
    (0 ≤ avg_centrality (buildDevicesDict scenarioA) ∧
      avg_centrality (buildDevicesDict scenarioA) ≤ 1) ∧
    (net1.analyze_topology
        [{ id := 5, device_name := "X", status := .active, type := .sensor,
           network_id := 1, connections := [] }]).map
      AnalysisResult.centrality_score = some 0 := by
  have h := C6_amended net1 scenarioA (by decide) (by decide) (by decide)
  exact ⟨h.1 _ rfl, h.2.1 _⟩

/-- Fault free gateway operation equation. -/
theorem gatewayOp_none (f : DB → DB) (s : IngestSt) :
    gatewayOp none f s =
      .ok { conn := Conn.commit { s.conn with current := f s.conn.current }
            opIdx := s.opIdx + 1 } := rfl

/-- Fault free device deletion loop preserves the next fresh device id. -/
theorem deleteDevicesPhase_none : ∀ (ids : List Nat) (s : IngestSt),
    ∃ s', deleteDevicesPhase none ids s = .ok s' ∧
      s'.conn.current.next_device_id = s.conn.current.next_device_id := by
  intro ids
  induction ids with
  | nil => intro s; exact ⟨s, rfl, rfl⟩
  | cons i rest ih =>
    intro s
    obtain ⟨s', h1, h2⟩ := ih
      { conn := Conn.commit { s.conn with current := s.conn.current.deleteDevice i }
        opIdx := s.opIdx + 1 }
    exact ⟨s', h1, h2⟩

/-- Fault free data source deletion loop preserves the next fresh device
id. -/
theorem deleteSourcesPhase_none : ∀ (ids : List Nat) (s : IngestSt),
    ∃ s', deleteSourcesPhase none ids s = .ok s' ∧
      s'.conn.current.next_device_id = s.conn.current.next_device_id := by
  intro ids
  induction ids with
  | nil => intro s; exact ⟨s, rfl, rfl⟩
  | cons i rest ih =>
    intro s
    obtain ⟨s', h1, h2⟩ := ih
      { conn := Conn.commit { s.conn with current := s.conn.current.deleteDataSource i }
        opIdx := s.opIdx + 1 }
    exact ⟨s', h1, h2⟩

/-- Membership after one dict assignment of the id map. -/
theorem mapAssign_mem {m : List (Nat × Nat)} {k v : Nat} {kv : Nat × Nat}
    (h : kv ∈ mapAssign m k v) : kv ∈ m ∨ kv = (k, v) := by
  unfold mapAssign at h
  split at h
  · obtain ⟨p, hp, hpe⟩ := List.mem_map.mp h
    by_cases hid : (p.1 == k) = true
    · rw [if_pos hid] at hpe
      exact Or.inr hpe.symm
    · rw [if_neg hid] at hpe
      exact Or.inl (hpe ▸ hp)
  · rcases List.mem_append.mp h with h1 | h1
    · exact Or.inl h1
    · exact Or.inr (List.mem_singleton.mp h1)

/-- Device row lookup stays successful after an insertion. -/
theorem findDeviceRow_insert_mono {db : DB} {i : Nat} (r : DeviceRecord) (nid : Nat)
    (h : (db.findDeviceRow i).isSome) :
    ((db.insertDevice r nid).findDeviceRow i).isSome := by
  unfold DB.findDeviceRow DB.insertDevice at *
  rw [List.find?_append]
  rw [Option.isSome_iff_exists] at h ⊢
  obtain ⟨row, hrow⟩ := h
  exact ⟨row, by simp [hrow]⟩

/-- Device row lookup of the freshly inserted id succeeds. -/
theorem findDeviceRow_insert_new (db : DB) (r : DeviceRecord) (nid : Nat) :
    ((db.insertDevice r nid).findDeviceRow db.next_device_id).isSome := by
  unfold DB.findDeviceRow DB.insertDevice
  rw [List.find?_isSome]
  refine ⟨{ id := db.next_device_id, device_name := r.name, status := r.status,
            type := r.type, network_id := nid }, ?_, by simp⟩
  simp

/-- Fault free device insertion loop: it returns the id map computed by
builtIdMap from the first fresh id, lookups stay successful, and every map
entry not inherited from the seed map names an inserted device row. -/
theorem insertDevicesPhase_none (network_id : Nat) :
    ∀ (records : List DeviceRecord) (m : List (Nat × Nat)) (s : IngestSt),
    ∃ s', insertDevicesPhase none network_id records m s =
        .ok (builtIdMap s.conn.current.next_device_id records m, s') ∧
      (∀ i, (s.conn.current.findDeviceRow i).isSome →
        (s'.conn.current.findDeviceRow i).isSome) ∧
      (∀ kv ∈ builtIdMap s.conn.current.next_device_id records m,
        kv ∈ m ∨ (s'.conn.current.findDeviceRow kv.2).isSome) := by
  intro records
  induction records with
  | nil =>
    intro m s
    exact ⟨s, rfl, fun i h => h, fun kv hkv => Or.inl hkv⟩
  | cons r rest ih =>
    intro m s
    obtain ⟨s', h1, hmono, hmem⟩ := ih (mapAssign m r.original_id s.conn.current.next_device_id)
      { conn := Conn.commit
          { s.conn with current := s.conn.current.insertDevice r network_id }
        opIdx := s.opIdx + 1 }
    refine ⟨s', ?_, ?_, ?_⟩
    · show insertDevicesPhase none network_id (r :: rest) m s = _
      unfold insertDevicesPhase
      rw [gatewayOp_none]
      exact h1
    · intro i hi
      exact hmono i (findDeviceRow_insert_mono r network_id hi)
    · intro kv hkv
      rcases hmem kv hkv with hin | hsome
      · rcases mapAssign_mem hin with hin2 | rfl
        · exact Or.inl hin2
        · exact Or.inr (hmono _ (findDeviceRow_insert_new s.conn.current r network_id))
      · exact Or.inr hsome

/-- Successful map lookup names an entry of the map. -/
theorem mapLookup_mem {m : List (Nat × Nat)} {k v : Nat}
    (h : mapLookup m k = some v) : ∃ kv ∈ m, kv.2 = v := by
  unfold mapLookup at h
  cases hfind : m.find? (fun p => p.1 == k) with
  | none => rw [hfind] at h; cases h
  | some p =>
    rw [hfind] at h
    refine ⟨p, List.mem_of_find?_eq_some hfind, ?_⟩
    simpa using h

/-- Cardinality step of the seen set difference when a fresh key arrives. -/
theorem card_insert_sdiff {α : Type} [DecidableEq α] (k : α) (K s : Finset α)
    (hk : k ∉ s) :
    ((insert k K) \ s).card = 1 + (K \ insert k s).card := by
  have h1 : (insert k K) \ s = insert k (K \ insert k s) := by
    ext x
    simp only [Finset.mem_sdiff, Finset.mem_insert]
    constructor
    · rintro ⟨hx1 | hx1, hx2⟩
      · exact Or.inl hx1
      · by_cases hxk : x = k
        · exact Or.inl hxk
        · exact Or.inr ⟨hx1, fun h => h.elim hxk hx2⟩
    · rintro (rfl | ⟨hx1, hx2⟩)
      · exact ⟨Or.inl rfl, hk⟩
      · exact ⟨Or.inr hx1, fun h => hx2 (Or.inr h)⟩
  rw [h1, Finset.card_insert_of_not_mem (by simp), Nat.add_comm]

/-- Fault free connection loop: starting from any seen set, the count grows
by the number of resolved canonical keys not yet seen, and the device table
is unchanged. -/
theorem connectionsPhase_none (idMap : List (Nat × Nat)) :
    ∀ (pairs : List (Nat × Nat)) (seen : List (Nat × Nat)) (count : Nat) (s : IngestSt),
    (∀ kv ∈ idMap, (s.conn.current.findDeviceRow kv.2).isSome) →
    ∃ s', connectionsPhase none idMap pairs seen count s =
        .ok (count +
          ((resolvedCanonicalKeys idMap pairs).toFinset \ seen.toFinset).card, s') ∧
      s'.conn.current.devices = s.conn.current.devices := by
  intro pairs
  induction pairs with
  | nil =>
    intro seen count s hdev
    exact ⟨s, by simp [connectionsPhase, resolvedCanonicalKeys], rfl⟩
  | cons p rest ih =>
    intro seen count s hdev
    obtain ⟨so, ta⟩ := p
    cases hso : mapLookup idMap so with
    | none =>
      obtain ⟨s', h1, h2⟩ := ih seen count s hdev
      refine ⟨s', ?_, h2⟩
      have hres : resolvedCanonicalKeys idMap ((so, ta) :: rest) =
          resolvedCanonicalKeys idMap rest := by
        unfold resolvedCanonicalKeys
        rw [List.filterMap_cons]
        simp [hso]
      rw [hres]
      unfold connectionsPhase
      simp only [hso]
      exact h1
    | some source_id =>
      cases hta : mapLookup idMap ta with
      | none =>
        obtain ⟨s', h1, h2⟩ := ih seen count s hdev
        refine ⟨s', ?_, h2⟩
        have hres : resolvedCanonicalKeys idMap ((so, ta) :: rest) =
            resolvedCanonicalKeys idMap rest := by
          unfold resolvedCanonicalKeys
          rw [List.filterMap_cons]
          simp [hso, hta]
        rw [hres]
        unfold connectionsPhase
        simp only [hso, hta]
        exact h1
      | some target_id =>
        have hres : resolvedCanonicalKeys idMap ((so, ta) :: rest) =
            sortedPair source_id target_id :: resolvedCanonicalKeys idMap rest := by
          unfold resolvedCanonicalKeys
          rw [List.filterMap_cons]
          simp only [hso, hta]
        by_cases hseen : sortedPair source_id target_id ∈ seen
        · obtain ⟨s', h1, h2⟩ := ih seen count s hdev
          refine ⟨s', ?_, h2⟩
          have hcard : ((resolvedCanonicalKeys idMap ((so, ta) :: rest)).toFinset \
              seen.toFinset).card =
              ((resolvedCanonicalKeys idMap rest).toFinset \ seen.toFinset).card := by
            rw [hres, List.toFinset_cons,
              Finset.insert_sdiff_of_mem _ (List.mem_toFinset.mpr hseen)]
          rw [hcard]
          unfold connectionsPhase
          simp only [hso, hta]
          rw [if_pos hseen]
          exact h1
        · obtain ⟨kv, hkv, hkveq⟩ := mapLookup_mem hso
          have hrow : (s.conn.current.findDeviceRow source_id).isSome := by
            rw [← hkveq]
            exact hdev kv hkv
          obtain ⟨row, hrowveq⟩ := Option.isSome_iff_exists.mp hrow
          obtain ⟨s', h1, h2⟩ := ih (seen ++ [sortedPair source_id target_id]) (count + 1)
            { conn := Conn.commit { s.conn with
                current := s.conn.current.saveConnections source_id
                  (((s.conn.current.deviceToDomain row).add_connection target_id).connections) }
              opIdx := s.opIdx + 1 }
            (fun kv2 hkv2 => hdev kv2 hkv2)
          refine ⟨s', ?_, h2⟩
          have hcard : (count + 1) +
              ((resolvedCanonicalKeys idMap rest).toFinset \
                (seen ++ [sortedPair source_id target_id]).toFinset).card =
              count + ((resolvedCanonicalKeys idMap ((so, ta) :: rest)).toFinset \
                seen.toFinset).card := by
            rw [hres, List.toFinset_cons, List.toFinset_append]
            have hu : (seen.toFinset ∪ [sortedPair source_id target_id].toFinset) =
                insert (sortedPair source_id target_id) seen.toFinset := by
              ext x
              simp [Or.comm]
            rw [hu, card_insert_sdiff _ _ _
              (fun hc => hseen (List.mem_toFinset.mp hc))]
            omega
          rw [← hcard]
          unfold connectionsPhase
          simp only [hso, hta]
          rw [if_neg hseen]
          simp only [hrowveq, gatewayOp_none]
          exact h1

/-- Fault free data source insertion loop always succeeds. -/
theorem dataSourcesPhase_none (network_id : Nat) :
    ∀ (records : List DataSourceRecord) (s : IngestSt),
    ∃ s', dataSourcesPhase none network_id records s = .ok s' := by
  intro records
  induction records with
  | nil => intro s; exact ⟨s, rfl⟩
  | cons r rest ih =>
    intro s
    obtain ⟨s', h1⟩ := ih
      { conn := Conn.commit
          { s.conn with current := s.conn.current.insertDataSource r network_id }
        opIdx := s.opIdx + 1 }
    exact ⟨s', h1⟩

/-- C5: for every ingestion batch run against an existing network without a
fault, the returned connections_loaded equals the number of distinct
canonical keys, the pair of mapped internal ids sorted by value, among the
connection pairs whose both external ids resolve through the device id
map; unresolved pairs and repeated pairs in either order are not counted. -/
theorem C5_connection_count (conn : Conn) (network_id : Nat) (dataset : Dataset)
    (hnet : (conn.current.networks.find? (fun n => n.id == network_id)).isSome) :
    (load_iot_data none conn network_id dataset).2.connections_loaded =
      distinctKeyCount (builtIdMap conn.current.next_device_id dataset.devices [])
        dataset.connections ∧
    (load_iot_data none conn network_id dataset).2.success = true := by
  obtain ⟨nrow, hfind⟩ := Option.isSome_iff_exists.mp hnet
  obtain ⟨s1, e1, hn1⟩ := deleteDevicesPhase_none
    ((conn.current.find_devices_by_network network_id).map (fun d => d.id))
    { conn := conn, opIdx := 0 }
  obtain ⟨s2, e2, hn2⟩ := deleteSourcesPhase_none
    ((s1.conn.current.find_sources_by_network network_id).map (fun src => src.id)) s1
  obtain ⟨s3, e3, hmono3, hmem3⟩ := insertDevicesPhase_none network_id dataset.devices [] s2
  have hdev : ∀ kv ∈ builtIdMap s2.conn.current.next_device_id dataset.devices [],
      (s3.conn.current.findDeviceRow kv.2).isSome := by
    intro kv hkv
    rcases hmem3 kv hkv with h | h
    · cases h
    · exact h
  obtain ⟨s4, e4, h4⟩ := connectionsPhase_none
    (builtIdMap s2.conn.current.next_device_id dataset.devices [])
    dataset.connections [] 0 s3 hdev
  obtain ⟨s5, e5⟩ := dataSourcesPhase_none network_id dataset.data_sources s4
  have hkey : s2.conn.current.next_device_id = conn.current.next_device_id := by
    rw [hn2, hn1]
  rw [hkey] at e3 e4
  unfold load_iot_data
  rw [hfind]
  simp only [e1, e2, e3, e4, e5]
  refine ⟨?_, trivial⟩
  show 0 + ((resolvedCanonicalKeys
      (builtIdMap conn.current.next_device_id dataset.devices [])
      dataset.connections).toFinset \
        (([] : List (Nat × Nat)).toFinset)).card = _
  rw [List.toFinset_nil, Finset.sdiff_empty, Nat.zero_add, List.card_toFinset]
  rfl

/-- C5 witness: the simple_test batch against the network only database
loads two connections, matching the two distinct canonical keys. -/
theorem C5_connection_count_witness :
    (load_iot_data none connNetworkOnly 1 simple_test).2.connections_loaded =
      distinctKeyCount (builtIdMap connNetworkOnly.current.next_device_id
        simple_test.devices []) simple_test.connections ∧
    (load_iot_data none connNetworkOnly 1 simple_test).2.success = true :=
  C5_connection_count connNetworkOnly 1 simple_test (by decide)

end IoTNet
